import Mathlib

/-!
Verification of the car-price prediction service submissions.

Each submission exposes a pre-trained regression model behind a small HTTP
API: it validates a JSON car payload, derives three features (age,
mileage_per_year, vintage), assembles a single-row dataframe and invokes the
estimator.  This file embeds the request-level logic of every submission:

* Gaddiel-Irakoze/main.py   (raw dict payload, no exception handler)
* jackiecwv/main.py         (pydantic payload, 500 on estimator error)
* Nima-Safara/main.py       (pydantic with range checks, 503 / 500)
* greg-gibson/app.py and greg-gibson/main.py (raw dict, no handler)
* galyna-boiko/app.py       (pydantic, no handler)
* patrick-githendu/patrick.py (pydantic, 400 on estimator error)
* brian-malone/fast-api-car-price/src/main.py (pydantic, 503 / 500)

The estimator itself is an opaque artifact; it is modelled as a function
from a feature row to either a numeric prediction or a raised exception.
Floats are modelled as rationals; the string-to-number coercions of
Python (float("1.8")) are not exercised by any claim and are modelled as
failing, while numeric-to-numeric coercions are exact.
-/

namespace CarPrice

/-- Python value as it appears in a JSON payload or a dataframe cell:
a string, a float (modelled as a rational) or an int. -/
inductive Value where
  | str (s : String)
  | num (q : ℚ)
  | int (n : ℤ)
deriving DecidableEq, Repr

/-- A single dataframe row (or a JSON object): an association list that keeps
the key insertion order, exactly as a Python dict and as
pandas.DataFrame([row]) keep column order. -/
abbrev Row := List (String × Value)

/-- A raw JSON payload, as received by the handlers that take a plain dict. -/
abbrev Dict := List (String × Value)

/-- The validated car payload, mirroring the pydantic CarFeatures model used
by jackiecwv, Nima-Safara, galyna-boiko, patrick-githendu and brian-malone. -/
structure CarFeatures where
  Manufacturer : String
  Model : String
  Fuel_type : String
  Engine_size : ℚ
  Year_of_manufacture : ℤ
  Mileage : ℚ
deriving DecidableEq, Repr

/-- The opaque loaded model: maps a feature row to a prediction, or raises
(an Except.error carrying the exception message). -/
abbrev Estimator := Row → Except String ℚ

/-- Outcome of one request handler: an HTTP response with a status code and
a JSON body, or an exception that propagated out of the handler unhandled. -/
inductive HandlerResult where
  | response (status : Nat) (body : Row)
  | fault (msg : String)
deriving DecidableEq, Repr

/-! ### Feature derivation

The three derived features.  Every submission contains the identical lines
  age = max(CURRENT_YEAR - year, 0)
  mileage_per_year = mileage / max(age, 1)
  vintage = int(age >= 20)
(Gaddiel-Irakoze/main.py 43-46, jackiecwv/main.py 63-66,
Nima-Safara/main.py 230-232, greg-gibson/app.py 45-48, greg-gibson/main.py
27-30, galyna-boiko/app.py 58-61, patrick-githendu/patrick.py 48-51,
brian-malone .../src/main.py 43-46).  CURRENT_YEAR is 2025 in all
submissions except Nima-Safara, which reads the system clock; it is a
parameter here. -/

/-- age = max(CURRENT_YEAR - year, 0). -/
def deriveAge (cy y : ℤ) : ℤ := max (cy - y) 0

/-- mileage_per_year = mileage / max(age, 1); Python float division on
a float numerator and an int divisor. -/
def deriveMpy (m : ℚ) (age : ℤ) : ℚ := m / ((max age 1 : ℤ) : ℚ)

/-- vintage = int(age >= 20). -/
def deriveVintage (age : ℤ) : ℤ := if 20 ≤ age then 1 else 0

/-! ### Rounding

Python round(x, 2) rounds to 2 decimal places, ties to even. -/

/-- Floor of a rational as an integer, written with explicit floor division
so that it evaluates by kernel reduction. -/
def ratFloor (q : ℚ) : ℤ := Int.fdiv q.num (q.den : ℤ)

/-- Round a rational to the nearest integer, ties to even. -/
def roundHalfEven (q : ℚ) : ℤ :=
  let f := ratFloor q
  let r := q - (f : ℚ)
  if r < 1/2 then f
  else if 1/2 < r then f + 1
  else if f % 2 = 0 then f else f + 1

/-- Python round(x, 2). -/
def pyRound2 (q : ℚ) : ℚ := ((roundHalfEven (q * 100) : ℤ) : ℚ) / 100

/-- Python str.strip(): drop the whitespace characters at both ends.
Written by structural recursion over the character list so that it
evaluates by kernel reduction. -/
def pyStrip (s : String) : String :=
  ⟨((s.data.dropWhile Char.isWhitespace).reverse.dropWhile
      Char.isWhitespace).reverse⟩

/-! ### Row assembly

Two column orders occur across the submissions.  Most place "Fuel type"
before "Engine size"; Nima-Safara and jackiecwv place "Engine size" before
"Fuel type".  The derived columns always come last in the order age,
mileage_per_year, vintage. -/

/-- Row with "Fuel type" before "Engine size" (Gaddiel-Irakoze 49-59,
greg-gibson app.py 51-62 and main.py 33-44, galyna-boiko 63-73,
patrick-githendu 54-64, brian-malone 48-58). -/
def mkRowFuelFirst (cy : ℤ) (m mo f : String) (e : ℚ) (y : ℤ) (mi : ℚ) : Row :=
  let age := deriveAge cy y
  [("Manufacturer", .str m),
   ("Model", .str mo),
   ("Fuel type", .str f),
   ("Engine size", .num e),
   ("Year of manufacture", .int y),
   ("Mileage", .num mi),
   ("age", .int age),
   ("mileage_per_year", .num (deriveMpy mi age)),
   ("vintage", .int (deriveVintage age))]

/-- Row with "Engine size" before "Fuel type" (jackiecwv 69-79,
Nima-Safara 236-247). -/
def mkRowEngineFirst (cy : ℤ) (m mo f : String) (e : ℚ) (y : ℤ) (mi : ℚ) : Row :=
  let age := deriveAge cy y
  [("Manufacturer", .str m),
   ("Model", .str mo),
   ("Engine size", .num e),
   ("Fuel type", .str f),
   ("Year of manufacture", .int y),
   ("Mileage", .num mi),
   ("age", .int age),
   ("mileage_per_year", .num (deriveMpy mi age)),
   ("vintage", .int (deriveVintage age))]

/-- Column names in the "Fuel type"-first order. -/
def fuelFirstCols : List String :=
  ["Manufacturer", "Model", "Fuel type", "Engine size", "Year of manufacture",
   "Mileage", "age", "mileage_per_year", "vintage"]

/-- Column names in the "Engine size"-first order. -/
def engineFirstCols : List String :=
  ["Manufacturer", "Model", "Engine size", "Fuel type", "Year of manufacture",
   "Mileage", "age", "mileage_per_year", "vintage"]

/-! ### Per-submission rows -/

/-- Gaddiel-Irakoze/main.py 49-59: the strings were already stripped during
extraction from the raw dict, CURRENT_YEAR = 2025. -/
def gaddielRow (c : CarFeatures) : Row :=
  mkRowFuelFirst 2025 c.Manufacturer c.Model c.Fuel_type
    c.Engine_size c.Year_of_manufacture c.Mileage

/-- greg-gibson/app.py 51-62 and greg-gibson/main.py 33-44: identical row
assembly in both files, strings stripped at extraction, CURRENT_YEAR = 2025. -/
def gregRow (c : CarFeatures) : Row :=
  mkRowFuelFirst 2025 c.Manufacturer c.Model c.Fuel_type
    c.Engine_size c.Year_of_manufacture c.Mileage

/-- galyna-boiko/app.py 63-73: strings stripped after model_dump,
CURRENT_YEAR = 2025. -/
def galynaRow (c : CarFeatures) : Row :=
  mkRowFuelFirst 2025 (pyStrip c.Manufacturer) (pyStrip c.Model) (pyStrip c.Fuel_type)
    c.Engine_size c.Year_of_manufacture c.Mileage

/-- patrick-githendu/patrick.py 54-64: strings stripped at extraction,
CURRENT_YEAR = 2025. -/
def patrickRow (c : CarFeatures) : Row :=
  mkRowFuelFirst 2025 (pyStrip c.Manufacturer) (pyStrip c.Model) (pyStrip c.Fuel_type)
    c.Engine_size c.Year_of_manufacture c.Mileage

/-- brian-malone .../src/main.py 48-58: strings taken as-is (no strip),
CURRENT_YEAR = 2025. -/
def brianRow (c : CarFeatures) : Row :=
  mkRowFuelFirst 2025 c.Manufacturer c.Model c.Fuel_type
    c.Engine_size c.Year_of_manufacture c.Mileage

/-- jackiecwv/main.py 69-79: strings stripped inside the row literal,
CURRENT_YEAR = 2025. -/
def jackieRow (c : CarFeatures) : Row :=
  mkRowEngineFirst 2025 (pyStrip c.Manufacturer) (pyStrip c.Model) (pyStrip c.Fuel_type)
    c.Engine_size c.Year_of_manufacture c.Mileage

/-- Nima-Safara/main.py 236-247: strings taken as-is (no strip);
CURRENT_YEAR comes from the system clock, a parameter here. -/
def nimaRow (cy : ℤ) (c : CarFeatures) : Row :=
  mkRowEngineFirst cy c.Manufacturer c.Model c.Fuel_type
    c.Engine_size c.Year_of_manufacture c.Mileage

/-! ### Raw-dict extraction

Gaddiel-Irakoze/main.py 35-40, greg-gibson/app.py 37-42 and
greg-gibson/main.py 19-24 contain the identical extraction lines
  manufacturer = str(payload["Manufacturer"]).strip()
  ...
  mileage = float(payload["Mileage"])
A missing key raises KeyError; a non-numeric string given to float() or
int() raises ValueError. -/

/-- Python dict lookup returning the first binding of the key, if any. -/
def dlookup (d : Dict) (k : String) : Option Value :=
  (d.find? (fun kv => kv.1 == k)).map (fun kv => kv.2)

/-- Python dict indexing: a missing key raises KeyError. -/
def dget (d : Dict) (k : String) : Except String Value :=
  match dlookup d k with
  | some v => .ok v
  | none => .error ("KeyError: " ++ k)

/-- Python str() on a payload value. -/
def pyStr : Value → String
  | .str s => s
  | .num q => toString q
  | .int n => toString n

/-- Python float() on a payload value.  Parsing of numeric strings is not
modelled (no claim exercises it); a string argument is modelled as the
ValueError that a non-numeric string raises. -/
def pyFloat : Value → Except String ℚ
  | .str s => .error ("ValueError: could not convert string to float: " ++ s)
  | .num q => .ok q
  | .int n => .ok (n : ℚ)

/-- Python int() truncation toward zero on a rational. -/
def pyTrunc (q : ℚ) : ℤ := if 0 ≤ q then ⌊q⌋ else ⌈q⌉

/-- Python int() on a payload value; same caveat on strings as pyFloat. -/
def pyInt : Value → Except String ℤ
  | .str s => .error ("ValueError: invalid literal for int: " ++ s)
  | .num q => .ok (pyTrunc q)
  | .int n => .ok n

/-- The shared raw-dict extraction lines of Gaddiel-Irakoze and both
greg-gibson files.  The first failing access aborts the handler with the
raised exception. -/
def dictExtract (p : Dict) : Except String CarFeatures := do
  let m ← dget p "Manufacturer"
  let mo ← dget p "Model"
  let f ← dget p "Fuel type"
  let e ← pyFloat (← dget p "Engine size")
  let y ← pyInt (← dget p "Year of manufacture")
  let mi ← pyFloat (← dget p "Mileage")
  return ⟨pyStrip (pyStr m), pyStrip (pyStr mo), pyStrip (pyStr f), e, y, mi⟩

/-! ### Request handlers

Each handler is the body of the POST /predict endpoint of one submission.
An exception that the handler does not catch becomes a HandlerResult.fault;
a raised HTTPException(status, detail) becomes a response with that status
and a body holding the detail.  The handlers of Nima-Safara and brian-malone
guard on an optional estimator and also return the list of rows actually
sent to the estimator, recording each invocation of model.predict. -/

/-- Gaddiel-Irakoze/main.py 34-63: raw dict extraction, no try/except, and
the response key is "predicted_price" with the value rounded to 2 places. -/
def gaddielPredict (est : Estimator) (p : Dict) : HandlerResult :=
  match dictExtract p with
  | .error e => .fault e
  | .ok c =>
    match est (gaddielRow c) with
    | .ok pr => .response 200 [("predicted_price", .num (pyRound2 pr))]
    | .error e => .fault e

/-- greg-gibson/app.py 35-71: raw dict extraction, no try/except, response
key "predicted_price_gbp" rounded to 2 places. -/
def gregAppPredict (est : Estimator) (p : Dict) : HandlerResult :=
  match dictExtract p with
  | .error e => .fault e
  | .ok c =>
    match est (gregRow c) with
    | .ok pr => .response 200 [("predicted_price_gbp", .num (pyRound2 pr))]
    | .error e => .fault e

/-- greg-gibson/main.py 17-54: raw dict extraction, no try/except, response
key "predicted_price" rounded to 2 places. -/
def gregMainPredict (est : Estimator) (p : Dict) : HandlerResult :=
  match dictExtract p with
  | .error e => .fault e
  | .ok c =>
    match est (gregRow c) with
    | .ok pr => .response 200 [("predicted_price", .num (pyRound2 pr))]
    | .error e => .fault e

/-- galyna-boiko/app.py 47-78: pydantic payload, no try/except, response key
"predicted_price_gbp" with the raw (unrounded) prediction. -/
def galynaPredict (est : Estimator) (c : CarFeatures) : HandlerResult :=
  match est (galynaRow c) with
  | .ok pr => .response 200 [("predicted_price_gbp", .num pr)]
  | .error e => .fault e

/-- patrick-githendu/patrick.py 36-71: pydantic payload, try/except that
raises HTTPException(400, str(e)); response key "predicted_price_gbp" with
the raw (unrounded) prediction. -/
def patrickPredict (est : Estimator) (c : CarFeatures) : HandlerResult :=
  match est (patrickRow c) with
  | .ok pr => .response 200 [("predicted_price_gbp", .num pr)]
  | .error e => .response 400 [("detail", .str e)]

/-- jackiecwv/main.py 60-95: pydantic payload, try/except that raises
HTTPException(500, str(e)); response key "predicted_price_gbp" rounded to
2 places. -/
def jackiePredict (est : Estimator) (c : CarFeatures) : HandlerResult :=
  match est (jackieRow c) with
  | .ok pr => .response 200 [("predicted_price_gbp", .num (pyRound2 pr))]
  | .error e => .response 500 [("detail", .str e)]

/-- Nima-Safara/main.py 209-263: returns 503 without touching the model when
it is unset; otherwise try/except raising HTTPException(500, "Prediction
failed: " + str(e)); response key "predicted_price_gbp" rounded to 2 places.
The second component records every row passed to model.predict. -/
def nimaPredict (cy : ℤ) (mest : Option Estimator) (c : CarFeatures) :
    HandlerResult × List Row :=
  match mest with
  | none =>
    (.response 503
      [("detail",
        .str "Model not loaded. Please check server logs and try again later.")],
     [])
  | some est =>
    let row := nimaRow cy c
    match est row with
    | .ok pr => (.response 200 [("predicted_price_gbp", .num (pyRound2 pr))], [row])
    | .error e => (.response 500 [("detail", .str ("Prediction failed: " ++ e))], [row])

/-- brian-malone .../src/main.py 37-65: returns 503 without touching the
model when it is unset; otherwise try/except raising HTTPException(500,
str(e)); response key "predicted_price_gbp" with the raw (unrounded)
prediction.  The second component records every row passed to
model.predict. -/
def brianPredict (mest : Option Estimator) (c : CarFeatures) :
    HandlerResult × List Row :=
  match mest with
  | none => (.response 503 [("detail", .str "Model not loaded")], [])
  | some est =>
    let row := brianRow c
    match est row with
    | .ok pr => (.response 200 [("predicted_price_gbp", .num pr)], [row])
    | .error e => (.response 500 [("detail", .str e)], [row])

/-! ### Request validation

Nima-Safara/main.py 21-30 is the only submission whose pydantic model
carries range constraints:
  Engine_size:  Field(alias="Engine size", gt=0)
  Year_of_manufacture: Field(alias="Year of manufacture", ge=1980)
  Mileage: Field(ge=0)
A raw payload is modelled with optional fields (a missing field is none);
pydantic collects one error per offending field, naming it. -/

/-- An unvalidated request body for the pydantic submissions: a missing
field is none. -/
structure RawPayload where
  Manufacturer : Option String
  Model : Option String
  Fuel_type : Option String
  Engine_size : Option ℚ
  Year_of_manufacture : Option ℤ
  Mileage : Option ℚ
deriving DecidableEq, Repr

/-- The field names that pydantic reports for Nima-Safara CarFeatures:
one entry per missing or out-of-range field, in declaration order. -/
def nimaFieldErrors (p : RawPayload) : List String :=
  (match p.Manufacturer with | none => ["Manufacturer"] | some _ => []) ++
  (match p.Model with | none => ["Model"] | some _ => []) ++
  (match p.Fuel_type with | none => ["Fuel type"] | some _ => []) ++
  (match p.Engine_size with
   | none => ["Engine size"]
   | some e => if 0 < e then [] else ["Engine size"]) ++
  (match p.Year_of_manufacture with
   | none => ["Year of manufacture"]
   | some y => if 1980 ≤ y then [] else ["Year of manufacture"]) ++
  (match p.Mileage with
   | none => ["Mileage"]
   | some mi => if 0 ≤ mi then [] else ["Mileage"])

/-- Validation of Nima-Safara CarFeatures: all six fields required,
Engine size > 0, Year of manufacture >= 1980, Mileage >= 0; a failure is
the 422 body naming the offending fields. -/
def validateNima (p : RawPayload) : Except (List String) CarFeatures :=
  match p.Manufacturer, p.Model, p.Fuel_type, p.Engine_size,
        p.Year_of_manufacture, p.Mileage with
  | some m, some mo, some f, some e, some y, some mi =>
    if 0 < e ∧ 1980 ≤ y ∧ 0 ≤ mi then .ok ⟨m, mo, f, e, y, mi⟩
    else .error (nimaFieldErrors p)
  | _, _, _, _, _, _ => .error (nimaFieldErrors p)

/-! ### Startup load -/

/-- Outcome of process startup: the model loaded, the process up with the
model reference unset, or startup aborted by a propagated exception. -/
inductive StartupOutcome where
  | ready (est : Estimator)
  | notReady
  | aborted (msg : String)

/-- Nima-Safara/main.py 42-49 resolve_model_path: the MODEL_PATH environment
override if set, else the fixed repo-relative default. -/
def resolveModelPathNima (env : Option String) : String :=
  match env with
  | some p => p
  | none => "SDS-CP040-modelops/models/model.pkl"

/-- Nima-Safara/main.py 92-104 lifespan startup: load from the resolved
path; on failure log and set model = None, keeping the process up. -/
def nimaStartup (env : Option String)
    (loader : String → Except String Estimator) : StartupOutcome :=
  match loader (resolveModelPathNima env) with
  | .ok m => .ready m
  | .error _ => .notReady

/-- brian-malone .../src/main.py 17: os.getenv("MODEL_PATH",
"/app/models/model.pkl"). -/
def brianModelPath (env : Option String) : String :=
  env.getD "/app/models/model.pkl"

/-- brian-malone .../src/main.py 14-23 load_model: load from the resolved
path; the except clause prints and re-raises, so a load failure propagates
out of the startup hook and aborts startup. -/
def brianStartup (env : Option String)
    (loader : String → Except String Estimator) : StartupOutcome :=
  match loader (brianModelPath env) with
  | .ok m => .ready m
  | .error e => .aborted e

/-- greg-gibson/app.py 10: model = joblib.load("models/model.pkl") at
module import, with no environment override and no try/except; a load
failure aborts the module import. -/
def gregStartup (loader : String → Except String Estimator) : StartupOutcome :=
  match loader "models/model.pkl" with
  | .ok m => .ready m
  | .error e => .aborted e

/-! ### Concrete inputs -/

/-- The Toyota Corolla scenario payload of the spec, validated form. -/
def toyotaCar : CarFeatures :=
  ⟨"Toyota", "Corolla", "Petrol", 1.8, 2019, 45000⟩

/-- The Toyota Corolla scenario payload as a raw JSON dict. -/
def toyotaDict : Dict :=
  [("Manufacturer", .str "Toyota"), ("Model", .str "Corolla"),
   ("Fuel type", .str "Petrol"), ("Engine size", .num 1.8),
   ("Year of manufacture", .int 2019), ("Mileage", .num 45000)]

/-- The Toyota Corolla payload with the Mileage key missing. -/
def toyotaDictNoMileage : Dict :=
  [("Manufacturer", .str "Toyota"), ("Model", .str "Corolla"),
   ("Fuel type", .str "Petrol"), ("Engine size", .num 1.8),
   ("Year of manufacture", .int 2019)]

/-- A validated payload whose Manufacturer carries surrounding whitespace. -/
def paddedCar : CarFeatures :=
  ⟨" Toyota ", "Corolla", "Petrol", 1.8, 2019, 45000⟩

/-- The raw dict for the pydantic submissions, built from a validated
payload (the wire keys with their declared value kinds). -/
def payloadOf (c : CarFeatures) : Dict :=
  [("Manufacturer", .str c.Manufacturer), ("Model", .str c.Model),
   ("Fuel type", .str c.Fuel_type), ("Engine size", .num c.Engine_size),
   ("Year of manufacture", .int c.Year_of_manufacture),
   ("Mileage", .num c.Mileage)]

/-- A raw payload with every field present and the year set to 3000. -/
def payload3000 : RawPayload :=
  ⟨some "Toyota", some "Corolla", some "Petrol", some 1.8, some 3000,
   some 45000⟩

/-- A raw payload identical to the Toyota scenario but missing Mileage. -/
def payloadNoMileage : RawPayload :=
  ⟨some "Toyota", some "Corolla", some "Petrol", some 1.8, some 2019, none⟩

/-- The Toyota scenario as a complete raw payload. -/
def payloadFull : RawPayload :=
  ⟨some "Toyota", some "Corolla", some "Petrol", some 1.8, some 2019,
   some 45000⟩

/-! ## Claims -/

/-- C1: for every validated car payload and current year, the derived
features are age = max(current_year - year_of_manufacture, 0) (never
negative), mileage_per_year = mileage / max(age, 1), and vintage = 1 exactly
when age is at least 20 (0 at age 19, 1 at age 20); the Toyota Corolla
scenario (year 2019, current year 2025, mileage 45000) yields age 6,
mileage_per_year 7500 and vintage 0. -/
theorem c1_feature_derivation (cy y a : ℤ) (m : ℚ) :
    deriveAge cy y = max (cy - y) 0 ∧
    0 ≤ deriveAge cy y ∧
    deriveMpy m (deriveAge cy y) = m / ((max (deriveAge cy y) 1 : ℤ) : ℚ) ∧
    (deriveVintage a = 1 ↔ 20 ≤ a) ∧
    (deriveVintage a = 0 ↔ a < 20) ∧
    deriveVintage 19 = 0 ∧ deriveVintage 20 = 1 ∧
    deriveAge 2025 2019 = 6 ∧
    deriveMpy 45000 (deriveAge 2025 2019) = 7500 ∧
    deriveVintage (deriveAge 2025 2019) = 0 := by
  refine ⟨rfl, le_max_right _ _, rfl, ?_, ?_, by decide, by decide,
    by decide, ?_, by decide⟩
  · unfold deriveVintage
    split <;> omega
  · unfold deriveVintage
    split <;> omega
  · norm_num [deriveMpy, deriveAge, max_def]

/-- C2: the divisor of mileage_per_year is max(age, 1), which is at least 1;
when age = 0 the divisor is exactly 1, so a current-year car (year 2025 with
current year 2025) gets mileage_per_year equal to its mileage. -/
theorem c2_no_zero_divisor (cy y : ℤ) (m : ℚ) :
    1 ≤ max (deriveAge cy y) 1 ∧
    deriveMpy m (deriveAge cy y) = m / ((max (deriveAge cy y) 1 : ℤ) : ℚ) ∧
    deriveMpy m 0 = m ∧
    deriveAge 2025 2025 = 0 ∧
    deriveMpy m (deriveAge 2025 2025) = m := by
  refine ⟨le_max_right _ _, rfl, ?_, by decide, ?_⟩
  · norm_num [deriveMpy, max_def]
  · norm_num [deriveMpy, deriveAge, max_def]

/-- C3 counterexample: in greg-gibson/app.py there is no try/except around
the estimator call, so an estimator exception propagates out of the handler
as an unhandled fault instead of an HTTP 500 response, contradicting the
claim for that submission. -/
theorem c3_counterexample :
    gregAppPredict (fun _ => Except.error "boom") toyotaDict =
      HandlerResult.fault "boom" ∧
    HandlerResult.fault "boom" ≠
      HandlerResult.response 500 [("detail", Value.str "boom")] :=
  ⟨rfl, by decide⟩

/-- C3 amended: only jackiecwv, Nima-Safara and brian-malone surface an
estimator exception as HTTP 500 carrying the underlying message;
patrick-githendu catches it but returns HTTP 400; Gaddiel-Irakoze,
greg-gibson (both files) and galyna-boiko let the exception propagate as an
unhandled fault. -/
theorem c3_amended_error_handling (c : CarFeatures) (cy : ℤ) (msg : String) :
    jackiePredict (fun _ => Except.error msg) c =
      HandlerResult.response 500 [("detail", Value.str msg)] ∧
    (nimaPredict cy (some (fun _ => Except.error msg)) c).1 =
      HandlerResult.response 500
        [("detail", Value.str ("Prediction failed: " ++ msg))] ∧
    (brianPredict (some (fun _ => Except.error msg)) c).1 =
      HandlerResult.response 500 [("detail", Value.str msg)] ∧
    patrickPredict (fun _ => Except.error msg) c =
      HandlerResult.response 400 [("detail", Value.str msg)] ∧
    galynaPredict (fun _ => Except.error msg) c = HandlerResult.fault msg ∧
    gaddielPredict (fun _ => Except.error msg) (payloadOf c) =
      HandlerResult.fault msg ∧
    gregAppPredict (fun _ => Except.error msg) (payloadOf c) =
      HandlerResult.fault msg ∧
    gregMainPredict (fun _ => Except.error msg) (payloadOf c) =
      HandlerResult.fault msg :=
  ⟨rfl, rfl, rfl, rfl, rfl, rfl, rfl, rfl⟩

/-- C4: in the two submissions whose estimator reference can be unset
(Nima-Safara and brian-malone), a POST /predict request with the model unset
returns HTTP 503 and records no estimator invocation (the second component,
the list of rows passed to model.predict, is empty). -/
theorem c4_model_unavailable (cy : ℤ) (c : CarFeatures) :
    nimaPredict cy none c =
      (HandlerResult.response 503
        [("detail",
          Value.str
            "Model not loaded. Please check server logs and try again later.")],
       []) ∧
    brianPredict none c =
      (HandlerResult.response 503 [("detail", Value.str "Model not loaded")],
       []) :=
  ⟨rfl, rfl⟩

/-- C5 counterexample: in Gaddiel-Irakoze (a cited source of the claim) the
payload is a raw dict with no validation, so a payload missing Mileage makes
the handler raise an unhandled KeyError instead of returning a 400/422
validation error naming the field. -/
theorem c5_counterexample :
    gaddielPredict (fun _ => Except.ok 0) toyotaDictNoMileage =
      HandlerResult.fault "KeyError: Mileage" ∧
    HandlerResult.fault "KeyError: Mileage" ≠
      HandlerResult.response 422 [("detail", Value.str "Mileage")] :=
  ⟨rfl, by decide⟩

/-- C5 amended: only Nima-Safara requires and range-checks all six fields
(Engine size > 0, Year of manufacture at least 1980, Mileage at least 0) and
rejects a payload missing Mileage with a validation error naming Mileage;
the raw-dict submissions such as Gaddiel-Irakoze instead fail with an
unhandled KeyError. -/
theorem c5_amended_validation (p : RawPayload) (c : CarFeatures) :
    (validateNima p = .ok c →
      0 < c.Engine_size ∧ 1980 ≤ c.Year_of_manufacture ∧ 0 ≤ c.Mileage) ∧
    (p.Mileage = none →
      validateNima p = .error (nimaFieldErrors p) ∧
      "Mileage" ∈ nimaFieldErrors p) ∧
    gaddielPredict (fun _ => Except.ok 0) toyotaDictNoMileage =
      HandlerResult.fault "KeyError: Mileage" := by
  refine ⟨?_, ?_, rfl⟩
  · intro h
    unfold validateNima at h
    split at h
    · split at h
      · rename_i hc
        obtain rfl := Except.ok.inj h
        exact hc
      · exact Except.noConfusion h
    · exact Except.noConfusion h
  · intro hm
    obtain ⟨m, mo, f, e, y, mi⟩ := p
    simp only at hm
    subst hm
    refine ⟨?_, by simp [nimaFieldErrors]⟩
    cases m <;> cases mo <;> cases f <;> cases e <;> cases y <;> rfl

/-- C5 witness: the complete Toyota payload passes validation with all range
checks holding, and the payload missing Mileage is rejected with an error
list containing "Mileage". -/
theorem c5_amended_validation_witness :
    (0 < toyotaCar.Engine_size ∧ 1980 ≤ toyotaCar.Year_of_manufacture ∧
      0 ≤ toyotaCar.Mileage) ∧
    (validateNima payloadNoMileage = .error (nimaFieldErrors payloadNoMileage) ∧
      "Mileage" ∈ nimaFieldErrors payloadNoMileage) :=
  ⟨(c5_amended_validation payloadFull toyotaCar).1
      (by norm_num [validateNima, payloadFull, toyotaCar]),
   (c5_amended_validation payloadNoMileage toyotaCar).2.1 rfl⟩

/-- C6 counterexample: Gaddiel-Irakoze (a cited source of the claim) returns
the rounded prediction under the key "predicted_price", not
"predicted_price_gbp". -/
theorem c6_counterexample :
    gaddielPredict (fun _ => Except.ok 1000) toyotaDict =
      HandlerResult.response 200
        [("predicted_price", Value.num (pyRound2 1000))] ∧
    "predicted_price" ≠ "predicted_price_gbp" :=
  ⟨rfl, by decide⟩

/-- C6 amended: jackiecwv, Nima-Safara and greg-gibson/app.py return
predicted_price_gbp rounded to 2 decimals; Gaddiel-Irakoze and
greg-gibson/main.py use the key predicted_price (rounded); galyna-boiko,
patrick-githendu and brian-malone return predicted_price_gbp with the raw
unrounded prediction. -/
theorem c6_amended_response (q : ℚ) (c : CarFeatures) (cy : ℤ) :
    jackiePredict (fun _ => Except.ok q) c =
      HandlerResult.response 200
        [("predicted_price_gbp", Value.num (pyRound2 q))] ∧
    (nimaPredict cy (some (fun _ => Except.ok q)) c).1 =
      HandlerResult.response 200
        [("predicted_price_gbp", Value.num (pyRound2 q))] ∧
    gregAppPredict (fun _ => Except.ok q) (payloadOf c) =
      HandlerResult.response 200
        [("predicted_price_gbp", Value.num (pyRound2 q))] ∧
    gaddielPredict (fun _ => Except.ok q) (payloadOf c) =
      HandlerResult.response 200
        [("predicted_price", Value.num (pyRound2 q))] ∧
    gregMainPredict (fun _ => Except.ok q) (payloadOf c) =
      HandlerResult.response 200
        [("predicted_price", Value.num (pyRound2 q))] ∧
    galynaPredict (fun _ => Except.ok q) c =
      HandlerResult.response 200 [("predicted_price_gbp", Value.num q)] ∧
    patrickPredict (fun _ => Except.ok q) c =
      HandlerResult.response 200 [("predicted_price_gbp", Value.num q)] ∧
    (brianPredict (some (fun _ => Except.ok q)) c).1 =
      HandlerResult.response 200 [("predicted_price_gbp", Value.num q)] :=
  ⟨rfl, rfl, rfl, rfl, rfl, rfl, rfl, rfl⟩

/-- C7 counterexample: brian-malone (a cited source of the claim) re-raises
inside its startup load handler, so a failed load aborts startup instead of
leaving the estimator reference unset with the process up. -/
theorem c7_counterexample :
    brianStartup none (fun _ => Except.error "load failed") =
      StartupOutcome.aborted "load failed" ∧
    StartupOutcome.aborted "load failed" ≠ StartupOutcome.notReady :=
  ⟨rfl, fun h => StartupOutcome.noConfusion h⟩

/-- C7 amended: only Nima-Safara resolves the artifact path via the
MODEL_PATH override with a fixed default and, on load failure, leaves the
reference unset with the process up; brian-malone consults MODEL_PATH but
re-raises on failure, aborting startup; greg-gibson loads a fixed path at
module-import time with no override and no handler, so a failure aborts
the module import. -/
theorem c7_amended_startup (p e : String) (env : Option String) :
    resolveModelPathNima (some p) = p ∧
    resolveModelPathNima none = "SDS-CP040-modelops/models/model.pkl" ∧
    nimaStartup env (fun _ => Except.error e) = StartupOutcome.notReady ∧
    brianModelPath (some p) = p ∧
    brianModelPath none = "/app/models/model.pkl" ∧
    brianStartup env (fun _ => Except.error e) = StartupOutcome.aborted e ∧
    gregStartup (fun _ => Except.error e) = StartupOutcome.aborted e :=
  ⟨rfl, rfl, rfl, rfl, rfl, rfl, rfl⟩

/-- C8 counterexample: on the Toyota scenario the Gaddiel-Irakoze row and
the Nima-Safara row do not have the same columns in the same order (they
swap "Fuel type" and "Engine size"). -/
theorem c8_counterexample :
    (gaddielRow toyotaCar).map Prod.fst ≠
      (nimaRow 2025 toyotaCar).map Prod.fst := by decide

/-- C8 amended: every submission produces the same nine columns but not in
the same order: Nima-Safara and jackiecwv place "Engine size" before
"Fuel type" while the other submissions place "Fuel type" first; the two
orders agree up to permutation and are distinct. -/
theorem c8_amended_columns (c : CarFeatures) (cy : ℤ) :
    (gaddielRow c).map Prod.fst = fuelFirstCols ∧
    (gregRow c).map Prod.fst = fuelFirstCols ∧
    (galynaRow c).map Prod.fst = fuelFirstCols ∧
    (patrickRow c).map Prod.fst = fuelFirstCols ∧
    (brianRow c).map Prod.fst = fuelFirstCols ∧
    (jackieRow c).map Prod.fst = engineFirstCols ∧
    (nimaRow cy c).map Prod.fst = engineFirstCols ∧
    fuelFirstCols.Perm engineFirstCols ∧
    fuelFirstCols ≠ engineFirstCols := by
  refine ⟨rfl, rfl, rfl, rfl, rfl, rfl, rfl, ?_, by decide⟩
  simp only [fuelFirstCols, engineFirstCols]
  exact .cons _ (.cons _ (.swap _ _ _))

/-- C9 counterexample: Nima-Safara (a cited source of the claim) places the
Manufacturer string in the feature row without stripping, so a value with
surrounding whitespace reaches the estimator unchanged. -/
theorem c9_counterexample :
    dlookup (nimaRow 2025 paddedCar) "Manufacturer" =
      some (Value.str " Toyota ") ∧
    pyStrip " Toyota " ≠ " Toyota " :=
  ⟨by decide, by decide⟩

/-- C9 amended: the raw-dict submissions (Gaddiel-Irakoze, greg-gibson) and
jackiecwv, galyna-boiko and patrick-githendu strip the three string fields
before placing them in the feature row; Nima-Safara and brian-malone place
them unstripped. -/
theorem c9_amended_trim (c : CarFeatures) (cy : ℤ) :
    dictExtract (payloadOf c) =
      Except.ok ⟨pyStrip c.Manufacturer, pyStrip c.Model, pyStrip c.Fuel_type,
        c.Engine_size, c.Year_of_manufacture, c.Mileage⟩ ∧
    dlookup (jackieRow c) "Manufacturer" =
      some (Value.str (pyStrip c.Manufacturer)) ∧
    dlookup (jackieRow c) "Model" = some (Value.str (pyStrip c.Model)) ∧
    dlookup (jackieRow c) "Fuel type" =
      some (Value.str (pyStrip c.Fuel_type)) ∧
    dlookup (galynaRow c) "Manufacturer" =
      some (Value.str (pyStrip c.Manufacturer)) ∧
    dlookup (patrickRow c) "Manufacturer" =
      some (Value.str (pyStrip c.Manufacturer)) ∧
    dlookup (nimaRow cy c) "Manufacturer" = some (Value.str c.Manufacturer) ∧
    dlookup (brianRow c) "Manufacturer" = some (Value.str c.Manufacturer) :=
  ⟨rfl, rfl, rfl, rfl, rfl, rfl, rfl, rfl⟩

/-- C10: no upper bound on Year of manufacture is validated (the year-3000
payload passes the strictest validator, Nima-Safara), and for any year past
the current year the derivation yields age 0, vintage 0 and
mileage_per_year equal to the mileage, pricing a future-dated car as brand
new. -/
theorem c10_future_year (cy y : ℤ) (m : ℚ) (h : cy < y) :
    validateNima payload3000 =
      Except.ok ⟨"Toyota", "Corolla", "Petrol", 1.8, 3000, 45000⟩ ∧
    deriveAge cy y = 0 ∧
    deriveVintage (deriveAge cy y) = 0 ∧
    deriveMpy m (deriveAge cy y) = m := by
  have hage : deriveAge cy y = 0 := max_eq_right (by omega)
  refine ⟨by norm_num [validateNima, payload3000], hage, ?_, ?_⟩
  · rw [hage]
    decide
  · rw [hage]
    norm_num [deriveMpy, max_def]

/-- C10 witness: the year-3000 payload with current year 2025. -/
theorem c10_future_year_witness :
    (2025 : ℤ) < 3000 ∧
    (validateNima payload3000 =
        Except.ok ⟨"Toyota", "Corolla", "Petrol", 1.8, 3000, 45000⟩ ∧
      deriveAge 2025 3000 = 0 ∧
      deriveVintage (deriveAge 2025 3000) = 0 ∧
      deriveMpy 45000 (deriveAge 2025 3000) = 45000) :=
  ⟨by norm_num, c10_future_year 2025 3000 45000 (by norm_num)⟩

end CarPrice
